import Mathlib

/-!
Verification of the FederatedOpenWallet transaction core against its
natural-language specification.

The definitions below are a shallow embedding of `fedow_core/utils.py`
(signature verification) and `fedow_core/serializers.py` (transaction
classification and validation).  Database rows become explicit record
values, Django querysets become list traversals, and `raise
serializers.ValidationError(...)` becomes an `Except`-style error value.
Attributes of the Django models that are referenced by the serializers but
whose model definitions are not part of the analysed sources (asset
category, wallet origin, place primary cards, card links, the transaction
hash check and balance application) are carried as plain record fields or
environment oracles, modelled from the specification's data model.
-/

namespace Fedow

/-- The transaction action tags of `Transaction.TYPE_ACTION` used by the
serializers. -/
inductive TransactionAction
  | SALE
  | CREATION
  | REFILL
  | TRANSFER
  | SUBSCRIBE
  | BADGE
  | FUSION
  | REFUND
  | VOID
deriving DecidableEq, Repr

/-- Asset categories referenced by the serializers
(`Asset.TOKEN_LOCAL_FIAT`, `Asset.TOKEN_LOCAL_NOT_FIAT`,
`Asset.SUBSCRIPTION`, `Asset.BADGE`). -/
inductive AssetCategory
  | tokenLocalFiat
  | tokenLocalNotFiat
  | subscription
  | badge
deriving DecidableEq, Repr

/-- Modelled from the spec: an Asset carries a category, the wallet that
created it (`wallet_origin`) and the flag marking the canonical
externally-backed asset (`is_stripe_primary()`). -/
structure Asset where
  id : Nat
  category : AssetCategory
  walletOrigin : Nat
  isStripePrimary : Bool
deriving DecidableEq, Repr

/-- Modelled from the spec: a Card is bound to a wallet (`get_wallet()`),
tagged with its issuing place (`origin.place`), exposes the authority
delegation of its wallet (`get_authority_delegation()`, a set of place
wallets) and optionally links a user and an ephemeral wallet. -/
structure Card where
  id : Nat
  originPlace : Nat
  walletId : Nat
  authorityDelegation : List Nat
  user : Option Nat
  walletEphemere : Option Nat
deriving DecidableEq, Repr

/-- Modelled from the spec: a Wallet, with the attributes the serializers
read from it: `is_primary()` (primary stripe wallet), the presence of an
owning user, and an attached ephemeral card (`card_ephemere`). -/
structure Wallet where
  id : Nat
  isPrimary : Bool
  hasUser : Bool
  cardEphemere : Option Card
deriving DecidableEq, Repr

/-- Modelled from the spec: a Place holds its wallet, its registered
primary cards and the assets it accepts (`accepted_assets()`). -/
structure Place where
  id : Nat
  wallet : Nat
  primaryCards : List Nat
  acceptedAssets : List Nat
deriving DecidableEq, Repr

/-- A Token row: the balance of one asset in one wallet
(`fedow_core/models.py`). -/
structure Token where
  wallet : Nat
  asset : Nat
  value : Int
deriving DecidableEq, Repr

/-- The ledger state the serializers read and mutate: the Token table. -/
abbrev LedgerState := List Token

/-- A created Transaction row, restricted to the fields the analysed
serializers set and the claims mention. -/
structure TransactionRec where
  sender : Nat
  receiver : Nat
  asset : Nat
  amount : Int
  action : TransactionAction
deriving DecidableEq, Repr

/-- `Token.objects.get(wallet=w, asset=a)`: first matching row. -/
def findToken : LedgerState → Nat → Nat → Option Token
  | [], _, _ => none
  | t :: ts, w, a => if t.wallet = w ∧ t.asset = a then some t else findToken ts w a

/-- Credit `amt` to the token of wallet `w` for asset `a`, creating the
token lazily when absent. -/
def creditToken : LedgerState → Nat → Nat → Int → LedgerState
  | [], w, a, amt => [⟨w, a, amt⟩]
  | t :: ts, w, a, amt =>
      if t.wallet = w ∧ t.asset = a then { t with value := t.value + amt } :: ts
      else t :: creditToken ts w a amt

/-- Debit `amt` from the token of wallet `w` for asset `a` when present. -/
def debitToken : LedgerState → Nat → Nat → Int → LedgerState
  | [], _, _, _ => []
  | t :: ts, w, a, amt =>
      if t.wallet = w ∧ t.asset = a then { t with value := t.value - amt } :: ts
      else t :: debitToken ts w a amt

/-- Modelled from the spec: the balance application performed when a
Transaction row is saved (the `Transaction.save` logic is not among the
analysed sources).  CREATION mints `amount` to its wallet; every other
action debits the sender and credits the receiver. -/
def applyTransaction (st : LedgerState) (tx : TransactionRec) : LedgerState :=
  match tx.action with
  | .CREATION => creditToken st tx.receiver tx.asset tx.amount
  | _ => creditToken (debitToken st tx.sender tx.asset tx.amount) tx.receiver tx.asset tx.amount

/-- Environment oracles for the parts of the program outside the analysed
serializer code: the hash check of a stored transaction
(`Transaction.verify_hash`, modelled from the spec's hash-chain layer),
and primary-key resolution of assets and places. -/
structure Env where
  hashOk : TransactionRec → Bool
  assetOfId : Nat → Asset
  placeOfId : Nat → Place

/- ------------------------------------------------------------------
   Signature verification (`fedow_core/utils.py`, `verify_signature`)
   ------------------------------------------------------------------ -/

/-- Exceptions of the Python cryptography library that
`verify_signature` can encounter.  `invalidSignature` is the only one the
function catches; the others escape to the caller. -/
inductive PyExn
  | valueError
  | binasciiError
deriving DecidableEq, Repr

/-- Oracles for the cryptography library calls made by
`verify_signature`: PEM public-key loading (`none` models the
`ValueError` raised on a malformed key), URL-safe base64 decoding
(`none` models the `binascii.Error` raised on a malformed signature
string), and the RSA-PSS verification itself (`false` models the
`InvalidSignature` exception, which the function catches). -/
structure CryptoEnv where
  loadPemPublicKey : String → Option Nat
  urlsafeB64decode : String → Option (List Nat)
  rsaPssVerify : Nat → String → List Nat → Bool

/-- Embeds `verify_signature(public_key, message, signature)`.  The
`try` block catches only `InvalidSignature` (returning `False`); a
malformed key or malformed base64 raises through. -/
def verify_signature (env : CryptoEnv) (public_key message signature : String) :
    Except PyExn Bool :=
  match env.loadPemPublicKey public_key with
  | none => .error .valueError
  | some key =>
    match env.urlsafeB64decode signature with
    | none => .error .binasciiError
    | some sigBytes => .ok (env.rsaPssVerify key message sigBytes)

/- ------------------------------------------------------------------
   TransactionW2W (`fedow_core/serializers.py`)
   ------------------------------------------------------------------ -/

/-- The distinct `serializers.ValidationError` outcomes of the analysed
serializers, one constructor per raise site, plus the uncaught
`AttributeError` of the placeless stripe path. -/
inductive VErr
  | amountMustBePositive
  | refillNoLongerImplemented
  | unauthorizedWalletOrigin
  | cardsRequiredForRefill
  | primaryCardRequired
  | primaryCardNotInPlacePrimaryCards
  | userCardRequired
  | unauthorizedDelegation
  | assetNotAccepted
  | noActionAuthorized
  | placeNotFound
  | attributeErrorNoUserCard
  | unauthorizedPlace
  | senderTokenDoesNotExist
  | notEnoughToken
  | transactionHashNotValid
  | userCardRequiredForRefund
  | actionMustBeRefundOrVoid
  | walletEphemereNotEmpty
deriving DecidableEq, Repr

/-- The validated data of a `TransactionW2W` request, after primary-key
resolution of sender, receiver, asset and the optional cards. -/
structure TransactionAttrs where
  amount : Int
  sender : Wallet
  receiver : Wallet
  asset : Asset
  actionHint : Option TransactionAction
  checkoutStripe : Bool
  primaryCard : Option Card
  userCard : Option Card
deriving DecidableEq, Repr

/-- The stripe-refill guard checked at the top of
`TransactionW2W.get_action` and again for place resolution: action hint
REFILL, a checkout reference, the primary sender wallet, the
stripe-primary asset. -/
def stripeRefillCond (a : TransactionAttrs) : Prop :=
  a.actionHint = some .REFILL ∧ a.checkoutStripe = true ∧
    a.sender.isPrimary = true ∧ a.asset.isStripePrimary = true

instance (a : TransactionAttrs) : Decidable (stripeRefillCond a) := by
  unfold stripeRefillCond
  infer_instance

/-- Embeds `TransactionW2W.get_action`: classify the request into the
authorized action, or raise the specific validation error. -/
def transactionW2W_get_action (place : Place) (a : TransactionAttrs) :
    Except VErr TransactionAction :=
  if stripeRefillCond a then .ok .REFILL
  else if place.wallet = a.sender.id then
    if a.asset.category = .subscription then .ok .SUBSCRIBE
    else if a.asset.category = .badge then .ok .BADGE
    else if a.sender.id = a.receiver.id then
      if a.asset.walletOrigin = place.wallet then .error .refillNoLongerImplemented
      else .error .unauthorizedWalletOrigin
    else if a.primaryCard = none ∨ a.userCard = none then .error .cardsRequiredForRefill
    else .ok .REFILL
  else if place.wallet = a.receiver.id then
    match a.primaryCard with
    | none => .error .primaryCardRequired
    | some pc =>
      if pc.id ∉ place.primaryCards then .error .primaryCardNotInPlacePrimaryCards
      else
        match a.userCard with
        | none => .error .userCardRequired
        | some uc =>
          if a.receiver.id ∉ uc.authorityDelegation then .error .unauthorizedDelegation
          else if a.asset.id ∉ place.acceptedAssets then .error .assetNotAccepted
          else .ok .SALE
  else if a.actionHint = some .FUSION then
    match a.sender.cardEphemere with
    | some ce =>
      if a.sender.hasUser = false ∧ a.receiver.hasUser = true then
        if ce.originPlace = place.id then .ok .FUSION
        else .error .noActionAuthorized
      else .error .noActionAuthorized
    | none => .error .noActionAuthorized
  else .error .noActionAuthorized

/-- Embeds `TransactionW2W.validate_amount`: only strictly positive
amounts pass. -/
def validate_amount (value : Int) : Except VErr Int :=
  if value ≤ 0 then .error .amountMustBePositive else .ok value

/-- Embeds the place-resolution step at the top of
`TransactionW2W.validate`: without a requesting place, only the stripe
refill path survives, the place then being the user card's origin; a
missing user card there is an uncaught `AttributeError` in the source. -/
def resolvePlace (env : Env) (place? : Option Place) (a : TransactionAttrs) :
    Except VErr Place :=
  match place? with
  | some p => .ok p
  | none =>
    if stripeRefillCond a then
      match a.userCard with
      | some uc => .ok (env.placeOfId uc.originPlace)
      | none => .error .attributeErrorNoUserCard
    else .error .placeNotFound

/-- The stages of `TransactionW2W.validate` before the sender-token
lookup: place resolution, classification, and the sender-or-receiver
authorization gate. -/
def preTokenStage (env : Env) (place? : Option Place) (a : TransactionAttrs) :
    Except VErr (Place × TransactionAction) :=
  match resolvePlace env place? a with
  | .error e => .error e
  | .ok p =>
    match transactionW2W_get_action p a with
    | .error e => .error e
    | .ok act =>
      if ¬ p.wallet = a.sender.id ∧ ¬ p.wallet = a.receiver.id ∧
          a.asset.isStripePrimary = false ∧ ¬ act = .FUSION then
        .error .unauthorizedPlace
      else .ok (p, act)

/-- The outcome of a `TransactionW2W` validation: the result (action or
validation error), the resulting token table, and the transaction rows
created along the way (Django does not roll rows back when the
serializer raises later). -/
structure W2WOutcome where
  result : Except VErr TransactionAction
  state : LedgerState
  created : List TransactionRec
deriving Repr

/-- The main transaction row built at the end of
`TransactionW2W.validate`. -/
def mkMainRec (a : TransactionAttrs) (act : TransactionAction) : TransactionRec :=
  ⟨a.sender.id, a.receiver.id, a.asset.id, a.amount, act⟩

/-- The companion CREATION row minted before a REFILL: sender and
receiver are both the sender wallet, the amount is the requested one. -/
def mkCreationRec (a : TransactionAttrs) : TransactionRec :=
  ⟨a.sender.id, a.sender.id, a.asset.id, a.amount, .CREATION⟩

/-- The receiver-token step of `TransactionW2W.validate`: the receiver's
token is fetched, or created with value 0 when absent. -/
def receiverEnsured (st : LedgerState) (a : TransactionAttrs) : LedgerState :=
  if (findToken st a.receiver.id a.asset.id).isSome then st
  else st ++ [⟨a.receiver.id, a.asset.id, 0⟩]

/-- Embeds the body of `TransactionW2W.validate` (after field
validation): place resolution, classification, the authorization gate,
the sender-token existence and balance checks, lazy creation of the
receiver token, the CREATION companion of a REFILL with its hash check,
and the final transaction creation with its hash check. -/
def transactionW2W_validate (env : Env) (place? : Option Place)
    (a : TransactionAttrs) (st : LedgerState) : W2WOutcome :=
  match preTokenStage env place? a with
  | .error e => ⟨.error e, st, []⟩
  | .ok (_, act) =>
    match findToken st a.sender.id a.asset.id with
    | none => ⟨.error .senderTokenDoesNotExist, st, []⟩
    | some tokenSender =>
      if tokenSender.value < a.amount ∧ (act = .SALE ∨ act = .TRANSFER) then
        ⟨.error .notEnoughToken, st, []⟩
      else
        if act = .REFILL then
          if env.hashOk (mkCreationRec a) = false then
            ⟨.error .transactionHashNotValid,
              applyTransaction (receiverEnsured st a) (mkCreationRec a),
              [mkCreationRec a]⟩
          else if env.hashOk (mkMainRec a act) = false then
            ⟨.error .transactionHashNotValid,
              applyTransaction (applyTransaction (receiverEnsured st a) (mkCreationRec a))
                (mkMainRec a act),
              [mkCreationRec a, mkMainRec a act]⟩
          else
            ⟨.ok act,
              applyTransaction (applyTransaction (receiverEnsured st a) (mkCreationRec a))
                (mkMainRec a act),
              [mkCreationRec a, mkMainRec a act]⟩
        else
          if env.hashOk (mkMainRec a act) = false then
            ⟨.error .transactionHashNotValid,
              applyTransaction (receiverEnsured st a) (mkMainRec a act), [mkMainRec a act]⟩
          else
            ⟨.ok act, applyTransaction (receiverEnsured st a) (mkMainRec a act),
              [mkMainRec a act]⟩

/-- A full `TransactionW2W.is_valid()` run: field validation
(`validate_amount`) followed by `validate`. -/
def transactionW2W_run (env : Env) (place? : Option Place)
    (a : TransactionAttrs) (st : LedgerState) : W2WOutcome :=
  match validate_amount a.amount with
  | .error e => ⟨.error e, st, []⟩
  | .ok _ => transactionW2W_validate env place? a st

/-- Embeds `BadgeValidator.validate`: unconditionally records a BADGE
transaction of amount 0 from the card's wallet to the place's wallet. -/
def badgeValidator_validate (place : Place) (cardWallet : Nat) (asset : Asset)
    (st : LedgerState) : TransactionRec × LedgerState :=
  let tx : TransactionRec := ⟨cardWallet, place.wallet, asset.id, 0, .BADGE⟩
  (tx, applyTransaction st tx)

/- ------------------------------------------------------------------
   CardRefundOrVoidValidator (`fedow_core/serializers.py`)
   ------------------------------------------------------------------ -/

/-- The token rows swept by `CardRefundOrVoidValidator.validate`: the
card wallet's tokens with positive value whose asset originates from the
requesting place's wallet and has a local (fiat or non-fiat) category. -/
def refundSweepTokens (env : Env) (place : Place) (st : LedgerState)
    (cardWallet : Nat) : List Token :=
  st.filter fun t =>
    decide (t.wallet = cardWallet ∧ 0 < t.value ∧
      (env.assetOfId t.asset).walletOrigin = place.wallet ∧
      ((env.assetOfId t.asset).category = .tokenLocalFiat ∨
        (env.assetOfId t.asset).category = .tokenLocalNotFiat))

/-- Outcome of a `CardRefundOrVoidValidator` run: the result, the REFUND
transactions created, the user card's final link state, and the token
table. -/
structure RefundOutcome where
  result : Except VErr Unit
  transactions : List TransactionRec
  userCard : Option Card
  state : LedgerState
deriving Repr

/-- Embeds `CardRefundOrVoidValidator.validate`: the primary card must
be one of the place's primary cards, a user card is required, every
swept token produces one REFUND transaction moving its full value from
the card's wallet to the place's wallet, and a VOID additionally
detaches the card from its user and any ephemeral wallet. -/
def cardRefundOrVoid_body (env : Env) (place : Place)
    (primaryCard? userCard? : Option Card) (action? : Option TransactionAction)
    (st : LedgerState) : RefundOutcome :=
  match primaryCard? with
  | none => ⟨.error .primaryCardNotInPlacePrimaryCards, [], userCard?, st⟩
  | some pc =>
    if pc.id ∉ place.primaryCards then
      ⟨.error .primaryCardNotInPlacePrimaryCards, [], userCard?, st⟩
    else
      match userCard? with
      | none => ⟨.error .userCardRequiredForRefund, [], none, st⟩
      | some uc =>
        let txs := (refundSweepTokens env place st uc.walletId).map fun t =>
          (⟨uc.walletId, place.wallet, t.asset, t.value, .REFUND⟩ : TransactionRec)
        let st1 := txs.foldl applyTransaction st
        let uc1 :=
          if action? = some .VOID then { uc with user := none, walletEphemere := none }
          else uc
        ⟨.ok (), txs, some uc1, st1⟩

/-- Embeds the `CardRefundOrVoidValidator.validate_action` field check in
front of `cardRefundOrVoid_body`: a supplied action must be REFUND or
VOID. -/
def cardRefundOrVoid_validate (env : Env) (place : Place)
    (primaryCard? userCard? : Option Card) (action? : Option TransactionAction)
    (st : LedgerState) : RefundOutcome :=
  match action? with
  | some act =>
    if ¬ (act = .REFUND ∨ act = .VOID) then ⟨.error .actionMustBeRefundOrVoid, [], userCard?, st⟩
    else cardRefundOrVoid_body env place primaryCard? userCard? action? st
  | none => cardRefundOrVoid_body env place primaryCard? userCard? action? st

/- ------------------------------------------------------------------
   Wallet fusion (`WalletCreateSerializer.validate`, fusion branch)
   ------------------------------------------------------------------ -/

/-- The card wallet's tokens with positive value
(`tokens.filter(value__gt=0)`). -/
def positiveTokens (st : LedgerState) (w : Nat) : List Token :=
  st.filter fun t => decide (t.wallet = w ∧ 0 < t.value)

/-- The `TransactionW2W` request data built for one token inside the
fusion loop of `WalletCreateSerializer.validate`. -/
def mkFusionAttrs (env : Env) (we wu : Wallet) (card : Card) (tok : Token) :
    TransactionAttrs where
  amount := tok.value
  sender := we
  receiver := wu
  asset := env.assetOfId tok.asset
  actionHint := some .FUSION
  checkoutStripe := false
  primaryCard := none
  userCard := some card

/-- The fusion loop: one `TransactionW2W` run per positive token of the
ephemeral wallet; the first invalid run aborts with its error. -/
def fusionLoop (env : Env) (place : Place) (we wu : Wallet) (card : Card) :
    LedgerState → List Token → Except (VErr × LedgerState) LedgerState
  | st, [] => .ok st
  | st, tok :: rest =>
    let out := transactionW2W_run env (some place) (mkFusionAttrs env we wu card tok) st
    match out.result with
    | .error e => .error (e, out.state)
    | .ok _ => fusionLoop env place we wu card out.state rest

/-- Outcome of a fusion attempt: the result, the card's final link
state, and the token table. -/
structure FusionOutcome where
  result : Except VErr Unit
  card : Card
  state : LedgerState
deriving Repr

/-- Embeds the fusion branch of `WalletCreateSerializer.validate`
(reached for a card without user but with an ephemeral wallet, claimed
by an existing user `userId` whose wallet is `wu`): when the ephemeral
wallet `we` differs from the user's wallet, drain each of its positive
tokens through `TransactionW2W` with hint FUSION; then re-read the
ephemeral wallet's tokens and fail if any is still positive; only then
clear the card's ephemeral-wallet link and set its user link. -/
def walletCreate_fusion (env : Env) (place : Place) (card : Card)
    (we wu : Wallet) (userId : Nat) (st : LedgerState) : FusionOutcome :=
  match (if we.id ≠ wu.id then fusionLoop env place we wu card st (positiveTokens st we.id)
      else .ok st : Except (VErr × LedgerState) LedgerState) with
  | .error (e, s) => ⟨.error e, card, s⟩
  | .ok s =>
    if positiveTokens s we.id ≠ [] then ⟨.error .walletEphemereNotEmpty, card, s⟩
    else ⟨.ok (), { card with walletEphemere := none, user := some userId }, s⟩

/- ==================================================================
   Theorems
   ================================================================== -/

/-- A cryptography environment on which every PEM key string fails to
load, as `load_pem_public_key` does on a malformed key. -/
def malformedKeyCryptoEnv : CryptoEnv :=
  ⟨fun _ => none, fun _ => some [], fun _ _ _ => false⟩

/-- A cryptography environment on which keys load and signatures decode,
and no signature ever matches. -/
def mismatchCryptoEnv : CryptoEnv :=
  ⟨fun _ => some 1, fun _ => some [2], fun _ _ _ => false⟩

/-- C1 counterexample: on a malformed public-key string,
`verify_signature` does not return any boolean outcome: the
`ValueError` of `load_pem_public_key` escapes, because the function
catches only `InvalidSignature`. -/
theorem verify_signature_c1_counterexample :
    verify_signature malformedKeyCryptoEnv "not a pem key" "msg" "sig" =
      .error .valueError ∧
    verify_signature malformedKeyCryptoEnv "not a pem key" "msg" "sig" ≠ .ok false ∧
    verify_signature malformedKeyCryptoEnv "not a pem key" "msg" "sig" ≠ .ok true := by
  refine ⟨rfl, ?_, ?_⟩ <;> intro h <;> simp [verify_signature, malformedKeyCryptoEnv] at h

/-- C1 amended: a signature mismatch on a well-formed key and signature
yields the single boolean result `False` with no exception, but a
malformed key raises `ValueError` and a malformed signature string
raises `binascii.Error`; only `InvalidSignature` is caught. -/
theorem verify_signature_c1_amended (env : CryptoEnv) (pk msg sig : String) :
    (env.loadPemPublicKey pk = none →
        verify_signature env pk msg sig = .error .valueError)
    ∧ (∀ key, env.loadPemPublicKey pk = some key →
        env.urlsafeB64decode sig = none →
        verify_signature env pk msg sig = .error .binasciiError)
    ∧ (∀ key sigBytes, env.loadPemPublicKey pk = some key →
        env.urlsafeB64decode sig = some sigBytes →
        verify_signature env pk msg sig = .ok (env.rsaPssVerify key msg sigBytes)) := by
  refine ⟨?_, ?_, ?_⟩
  · intro h
    simp [verify_signature, h]
  · intro key hk hs
    simp [verify_signature, hk, hs]
  · intro key sigBytes hk hs
    simp [verify_signature, hk, hs]

/-- C1 witness: the amended theorem applied on a concrete environment
where the key loads, the signature decodes, and verification fails:
the outcome is exactly `False`. -/
theorem verify_signature_c1_witness :
    verify_signature mismatchCryptoEnv "k" "m" "s" = .ok false :=
  (verify_signature_c1_amended mismatchCryptoEnv "k" "m" "s").2.2 1 [2] rfl rfl

/-- C2: `validate_amount` rejects every non-positive amount, so every
`TransactionW2W` request (hence every SALE, TRANSFER, REFILL and FUSION)
needs a strictly positive amount, while the badge entry point records
its BADGE transaction with amount exactly 0; negative amounts are
impossible on both paths. -/
theorem amount_precheck_c2 :
    (∀ v : Int, v ≤ 0 → validate_amount v = .error .amountMustBePositive)
    ∧ (∀ (env : Env) (place? : Option Place) (a : TransactionAttrs) (st : LedgerState),
        a.amount ≤ 0 →
        (transactionW2W_run env place? a st).result = .error .amountMustBePositive)
    ∧ (∀ (place : Place) (cardWallet : Nat) (asset : Asset) (st : LedgerState),
        (badgeValidator_validate place cardWallet asset st).1.amount = 0 ∧
        (badgeValidator_validate place cardWallet asset st).1.action = .BADGE) := by
  refine ⟨?_, ?_, ?_⟩
  · intro v h
    simp [validate_amount, h]
  · intro env place? a st h
    simp [transactionW2W_run, validate_amount, h]
  · intro place cardWallet asset st
    exact ⟨rfl, rfl⟩

/-- C2 witness: the theorem applied on concrete amounts: minus two and
zero are rejected by the wallet-to-wallet pre-check, and the badge path
records amount 0. -/
theorem amount_precheck_c2_witness :
    validate_amount (-2) = .error .amountMustBePositive ∧
    validate_amount 0 = .error .amountMustBePositive ∧
    (badgeValidator_validate ⟨7, 1, [], []⟩ 2 ⟨5, .badge, 1, false⟩ []).1.amount = 0 :=
  ⟨amount_precheck_c2.1 (-2) (by decide), amount_precheck_c2.1 0 (by decide),
    (amount_precheck_c2.2.2 ⟨7, 1, [], []⟩ 2 ⟨5, .badge, 1, false⟩ []).1⟩

/-- Concrete place for the C3 counterexample: wallet 10, primary card
100, accepted asset 5. -/
def c3Place : Place := ⟨1, 10, [100], [5]⟩

/-- Concrete asset for the C3 counterexample: a local asset originating
from wallet 99, which is not the place's wallet. -/
def c3Asset : Asset := ⟨5, .tokenLocalNotFiat, 99, false⟩

/-- The place's own wallet, used as both sender and receiver. -/
def c3Sender : Wallet := ⟨10, false, false, none⟩

/-- A primary card for the C3 counterexample. -/
def c3PrimaryCard : Card := ⟨100, 1, 50, [10], none, none⟩

/-- A user card for the C3 counterexample. -/
def c3UserCard : Card := ⟨101, 1, 60, [10], none, none⟩

/-- C3 counterexample request: the place's wallet sends to itself an
asset that does not originate from this place, with both a primary card
and a user card supplied. -/
def c3Attrs : TransactionAttrs :=
  ⟨5, c3Sender, c3Sender, c3Asset, none, false, some c3PrimaryCard, some c3UserCard⟩

/-- C3 counterexample: a self-transfer (sender = receiver = the place's
wallet) of an asset that does **not** originate from this place's
wallet, with both a primary card and a user card present, is rejected by
`get_action` with "Unauthorized wallet_origin" — the claim's fallthrough
rule would classify it as REFILL. -/
theorem get_action_c3_counterexample :
    ¬ stripeRefillCond c3Attrs ∧
    c3Place.wallet = c3Attrs.sender.id ∧
    c3Attrs.sender.id = c3Attrs.receiver.id ∧
    c3Attrs.asset.walletOrigin ≠ c3Place.wallet ∧
    c3Attrs.asset.category ≠ .subscription ∧
    c3Attrs.asset.category ≠ .badge ∧
    c3Attrs.primaryCard ≠ none ∧
    c3Attrs.userCard ≠ none ∧
    transactionW2W_get_action c3Place c3Attrs = .error .unauthorizedWalletOrigin ∧
    transactionW2W_get_action c3Place c3Attrs ≠ .ok .REFILL := by
  refine ⟨?_, rfl, rfl, ?_, ?_, ?_, ?_, ?_, rfl, ?_⟩ <;> first
    | decide
    | (intro h; simp [transactionW2W_get_action, c3Place, c3Attrs, c3Asset, c3Sender,
        stripeRefillCond, c3PrimaryCard, c3UserCard] at h)

/-- C3 amended: for a non-stripe request whose sender is the requesting
place's wallet, a SUBSCRIPTION asset classifies as SUBSCRIBE, a BADGE
asset as BADGE; **every** self-transfer (sender = receiver) is rejected,
with one error when the asset originates from this place's wallet and a
different one otherwise; and when sender differs from receiver the
request classifies as REFILL exactly when both a primary card and a user
card are present, else it is rejected. -/
theorem get_action_c3_amended (place : Place) (a : TransactionAttrs)
    (hs : ¬ stripeRefillCond a)
    (hsender : place.wallet = a.sender.id) :
    (a.asset.category = .subscription →
        transactionW2W_get_action place a = .ok .SUBSCRIBE)
    ∧ (a.asset.category ≠ .subscription → a.asset.category = .badge →
        transactionW2W_get_action place a = .ok .BADGE)
    ∧ (a.asset.category ≠ .subscription → a.asset.category ≠ .badge →
        a.sender.id = a.receiver.id →
        transactionW2W_get_action place a =
          (if a.asset.walletOrigin = place.wallet then
            Except.error .refillNoLongerImplemented
          else Except.error .unauthorizedWalletOrigin))
    ∧ (a.asset.category ≠ .subscription → a.asset.category ≠ .badge →
        a.sender.id ≠ a.receiver.id →
        (transactionW2W_get_action place a = .ok .REFILL ↔
          (a.primaryCard ≠ none ∧ a.userCard ≠ none)))
    ∧ (a.asset.category ≠ .subscription → a.asset.category ≠ .badge →
        a.sender.id ≠ a.receiver.id → (a.primaryCard = none ∨ a.userCard = none) →
        transactionW2W_get_action place a = .error .cardsRequiredForRefill) := by
  refine ⟨?_, ?_, ?_, ?_, ?_⟩
  · intro hsub
    simp [transactionW2W_get_action, hs, hsender, hsub]
  · intro hsub hbadge
    simp [transactionW2W_get_action, hs, hsender, hsub, hbadge]
  · intro hsub hbadge hself
    simp [transactionW2W_get_action, hs, hsender, hsub, hbadge, hself]
  · intro hsub hbadge hself
    by_cases hc : a.primaryCard = none ∨ a.userCard = none
    · simp [transactionW2W_get_action, hs, hsender, hsub, hbadge, hself, hc]
      tauto
    · push_neg at hc
      simp [transactionW2W_get_action, hs, hsender, hsub, hbadge, hself, hc.1, hc.2]
  · intro hsub hbadge hself hc
    simp [transactionW2W_get_action, hs, hsender, hsub, hbadge, hself, hc]

/-- C3 witness: the amended theorem applied on a concrete local refill
(place wallet 10 to user wallet 60, both cards supplied) classifies as
REFILL. -/
theorem get_action_c3_witness :
    transactionW2W_get_action c3Place
      ⟨5, c3Sender, ⟨60, false, true, none⟩, c3Asset, none, false,
        some c3PrimaryCard, some c3UserCard⟩ = .ok .REFILL :=
  ((get_action_c3_amended c3Place
      ⟨5, c3Sender, ⟨60, false, true, none⟩, c3Asset, none, false,
        some c3PrimaryCard, some c3UserCard⟩
      (by decide) rfl).2.2.2.1 (by decide) (by decide) (by decide)).mpr
    ⟨by decide, by decide⟩

/-- Concrete place for the C4 counterexample: wallet 1, primary card 20,
accepted asset 3. -/
def c4Place : Place := ⟨7, 1, [20], [3]⟩

/-- The stripe-primary asset, accepted by the place. -/
def c4Asset : Asset := ⟨3, .tokenLocalFiat, 1, true⟩

/-- The primary stripe wallet, distinct from the place's wallet. -/
def c4Sender : Wallet := ⟨9, true, false, none⟩

/-- The place's own wallet as receiver. -/
def c4Receiver : Wallet := ⟨1, false, false, none⟩

/-- A registered primary card for the C4 counterexample. -/
def c4PrimaryCard : Card := ⟨20, 7, 100, [], none, none⟩

/-- A user card whose wallet delegates authority to the place's
wallet 1. -/
def c4UserCard : Card := ⟨21, 7, 2, [1], some 42, none⟩

/-- C4 counterexample request: hint REFILL with a checkout reference,
sent by the primary wallet to the place's wallet, in the stripe-primary
asset, with a registered primary card and a delegating user card. -/
def c4Attrs : TransactionAttrs :=
  ⟨5, c4Sender, c4Receiver, c4Asset, some .REFILL, true,
    some c4PrimaryCard, some c4UserCard⟩

/-- C4 counterexample: a request whose receiver is the place's wallet
and whose sender is not, satisfying all four SALE conditions (registered
primary card, user card, delegation, accepted asset), classifies as
REFILL — not SALE — because the external-payment (stripe) refill rule
is checked first; the claim omits that exclusion. -/
theorem get_action_c4_counterexample :
    c4Place.wallet ≠ c4Attrs.sender.id ∧
    c4Place.wallet = c4Attrs.receiver.id ∧
    c4Attrs.primaryCard = some c4PrimaryCard ∧
    c4PrimaryCard.id ∈ c4Place.primaryCards ∧
    c4Attrs.userCard = some c4UserCard ∧
    c4Attrs.receiver.id ∈ c4UserCard.authorityDelegation ∧
    c4Attrs.asset.id ∈ c4Place.acceptedAssets ∧
    transactionW2W_get_action c4Place c4Attrs = .ok .REFILL ∧
    transactionW2W_get_action c4Place c4Attrs ≠ .ok .SALE := by
  refine ⟨?_, rfl, rfl, ?_, rfl, ?_, ?_, rfl, ?_⟩ <;> first
    | decide
    | (intro h; simp [transactionW2W_get_action, c4Place, c4Attrs, c4Asset, c4Sender,
        stripeRefillCond] at h)

/-- The receiver branch of `get_action` in closed form, for a non-stripe
request whose receiver (and not sender) is the place's wallet. -/
theorem get_action_receiver_branch (place : Place) (a : TransactionAttrs)
    (hs : ¬ stripeRefillCond a)
    (hsend : place.wallet ≠ a.sender.id)
    (hrecv : place.wallet = a.receiver.id) :
    transactionW2W_get_action place a =
      (match a.primaryCard with
      | none => .error .primaryCardRequired
      | some pc =>
        if pc.id ∉ place.primaryCards then .error .primaryCardNotInPlacePrimaryCards
        else
          match a.userCard with
          | none => .error .userCardRequired
          | some uc =>
            if a.receiver.id ∉ uc.authorityDelegation then .error .unauthorizedDelegation
            else if a.asset.id ∉ place.acceptedAssets then .error .assetNotAccepted
            else .ok .SALE) := by
  unfold transactionW2W_get_action
  rw [if_neg hs, if_neg hsend, if_pos hrecv]

/-- C4 amended: for a request whose receiver is the place's wallet and
whose sender is not, **and that is not the external-payment (stripe)
refill case**, classification yields SALE exactly when a registered
primary card, a user card, the delegation and the accepted asset are all
present; each failing condition yields its own error, checked in that
order. -/
theorem get_action_c4_amended (place : Place) (a : TransactionAttrs)
    (hs : ¬ stripeRefillCond a)
    (hsend : place.wallet ≠ a.sender.id)
    (hrecv : place.wallet = a.receiver.id) :
    (transactionW2W_get_action place a = .ok .SALE ↔
        ∃ pc uc, a.primaryCard = some pc ∧ a.userCard = some uc ∧
          pc.id ∈ place.primaryCards ∧ a.receiver.id ∈ uc.authorityDelegation ∧
          a.asset.id ∈ place.acceptedAssets)
    ∧ (a.primaryCard = none →
        transactionW2W_get_action place a = .error .primaryCardRequired)
    ∧ (∀ pc, a.primaryCard = some pc → pc.id ∉ place.primaryCards →
        transactionW2W_get_action place a = .error .primaryCardNotInPlacePrimaryCards)
    ∧ (∀ pc, a.primaryCard = some pc → pc.id ∈ place.primaryCards →
        a.userCard = none →
        transactionW2W_get_action place a = .error .userCardRequired)
    ∧ (∀ pc uc, a.primaryCard = some pc → pc.id ∈ place.primaryCards →
        a.userCard = some uc → a.receiver.id ∉ uc.authorityDelegation →
        transactionW2W_get_action place a = .error .unauthorizedDelegation)
    ∧ (∀ pc uc, a.primaryCard = some pc → pc.id ∈ place.primaryCards →
        a.userCard = some uc → a.receiver.id ∈ uc.authorityDelegation →
        a.asset.id ∉ place.acceptedAssets →
        transactionW2W_get_action place a = .error .assetNotAccepted) := by
  rw [get_action_receiver_branch place a hs hsend hrecv]
  refine ⟨?_, ?_, ?_, ?_, ?_, ?_⟩
  · constructor
    · intro h
      cases hpc : a.primaryCard with
      | none => simp [hpc] at h
      | some pc =>
        cases huc : a.userCard with
        | none =>
          simp [hpc, huc] at h
          by_cases hmem : pc.id ∈ place.primaryCards <;> simp [hmem] at h
        | some uc =>
          refine ⟨pc, uc, rfl, rfl, ?_⟩
          simp [hpc, huc] at h
          by_cases h1 : pc.id ∈ place.primaryCards
          · by_cases h2 : a.receiver.id ∈ uc.authorityDelegation
            · by_cases h3 : a.asset.id ∈ place.acceptedAssets
              · exact ⟨h1, h2, h3⟩
              · simp [h1, h2, h3] at h
            · simp [h1, h2] at h
          · simp [h1] at h
    · rintro ⟨pc, uc, hpc, huc, h1, h2, h3⟩
      simp [hpc, huc, h1, h2, h3]
  · intro h
    simp [h]
  · intro pc hpc hmem
    simp [hpc, hmem]
  · intro pc hpc hmem huc
    simp [hpc, hmem, huc]
  · intro pc uc hpc hmem huc hdel
    simp [hpc, hmem, huc, hdel]
  · intro pc uc hpc hmem huc hdel hacc
    simp [hpc, hmem, huc, hdel, hacc]

/-- C4 witness: the amended theorem applied on a concrete request (same
cards and delegation, non-stripe asset) classifies as SALE. -/
theorem get_action_c4_witness :
    transactionW2W_get_action ⟨7, 1, [20], [5]⟩
      ⟨4, ⟨2, false, true, none⟩, c4Receiver, ⟨5, .tokenLocalNotFiat, 1, false⟩,
        none, false, some c4PrimaryCard, some c4UserCard⟩ = .ok .SALE :=
  ((get_action_c4_amended ⟨7, 1, [20], [5]⟩
      ⟨4, ⟨2, false, true, none⟩, c4Receiver, ⟨5, .tokenLocalNotFiat, 1, false⟩,
        none, false, some c4PrimaryCard, some c4UserCard⟩
      (by decide) (by decide) rfl).1).mpr
    ⟨c4PrimaryCard, c4UserCard, rfl, rfl, by decide, by decide, by decide⟩

/-- A successful `preTokenStage` pins down place resolution, the
classified action, and the pass through the authorization gate. -/
theorem preTokenStage_ok_facts (env : Env) (place? : Option Place) (a : TransactionAttrs)
    (p : Place) (act : TransactionAction)
    (h : preTokenStage env place? a = .ok (p, act)) :
    resolvePlace env place? a = .ok p ∧
    transactionW2W_get_action p a = .ok act ∧
    (p.wallet = a.sender.id ∨ p.wallet = a.receiver.id ∨
      a.asset.isStripePrimary = true ∨ act = .FUSION) := by
  unfold preTokenStage at h
  cases hres : resolvePlace env place? a with
  | error e => rw [hres] at h; simp at h
  | ok p1 =>
    simp only [hres] at h
    cases hact : transactionW2W_get_action p1 a with
    | error e => simp only [hact] at h; simp at h
    | ok act1 =>
      simp only [hact] at h
      by_cases hcond : (¬ p1.wallet = a.sender.id ∧ ¬ p1.wallet = a.receiver.id ∧
          a.asset.isStripePrimary = false ∧ ¬ act1 = .FUSION)
      · rw [if_pos hcond] at h; simp at h
      · rw [if_neg hcond] at h
        simp only [Except.ok.injEq, Prod.mk.injEq] at h
        obtain ⟨hp, ha⟩ := h
        subst hp
        subst ha
        refine ⟨rfl, hact, ?_⟩
        by_cases h1 : p1.wallet = a.sender.id
        · exact Or.inl h1
        by_cases h2 : p1.wallet = a.receiver.id
        · exact Or.inr (Or.inl h2)
        by_cases h4 : act1 = .FUSION
        · exact Or.inr (Or.inr (Or.inr h4))
        cases hb : a.asset.isStripePrimary with
        | true => exact Or.inr (Or.inr (Or.inl rfl))
        | false => exact absurd ⟨h1, h2, hb, h4⟩ hcond

/-- A successful `TransactionW2W` run passed `preTokenStage` with the
returned action. -/
theorem run_ok_preTokenStage (env : Env) (place? : Option Place) (a : TransactionAttrs)
    (st : LedgerState) (act : TransactionAction)
    (h : (transactionW2W_run env place? a st).result = .ok act) :
    ∃ p, preTokenStage env place? a = .ok (p, act) := by
  unfold transactionW2W_run at h
  cases hv : validate_amount a.amount with
  | error e => rw [hv] at h; simp at h
  | ok v =>
    rw [hv] at h
    unfold transactionW2W_validate at h
    cases hpre : preTokenStage env place? a with
    | error e => rw [hpre] at h; simp at h
    | ok pa =>
      obtain ⟨p, act1⟩ := pa
      simp only [hpre] at h
      refine ⟨p, ?_⟩
      cases hft : findToken st a.sender.id a.asset.id with
      | none => simp only [hft] at h; simp at h
      | some tokenSender =>
        simp only [hft] at h
        by_cases hval : tokenSender.value < a.amount ∧ (act1 = .SALE ∨ act1 = .TRANSFER)
        · rw [if_pos hval] at h; simp at h
        · rw [if_neg hval] at h
          by_cases hrf : act1 = .REFILL
          · rw [if_pos hrf] at h
            by_cases hh1 : env.hashOk (mkCreationRec a) = false
            · rw [if_pos hh1] at h; simp at h
            · rw [if_neg hh1] at h
              by_cases hh2 : env.hashOk (mkMainRec a act1) = false
              · rw [if_pos hh2] at h; simp at h
              · rw [if_neg hh2] at h
                simp only [Except.ok.injEq] at h
                subst h
                rfl
          · rw [if_neg hrf] at h
            by_cases hh2 : env.hashOk (mkMainRec a act1) = false
            · rw [if_pos hh2] at h; simp at h
            · rw [if_neg hh2] at h
              simp only [Except.ok.injEq] at h
              subst h
              rfl

/-- C5: a `TransactionW2W` request validated for a requesting place only
succeeds when the sender or the receiver is that place's wallet, or the
asset is the canonical externally-backed (stripe-primary) asset, or the
classified action is FUSION; any other request is rejected. -/
theorem validate_c5 (env : Env) (p : Place) (a : TransactionAttrs) (st : LedgerState)
    (act : TransactionAction)
    (h : (transactionW2W_run env (some p) a st).result = .ok act) :
    p.wallet = a.sender.id ∨ p.wallet = a.receiver.id ∨
      a.asset.isStripePrimary = true ∨ act = .FUSION := by
  obtain ⟨p1, hpre⟩ := run_ok_preTokenStage env (some p) a st act h
  obtain ⟨hres, _, hauth⟩ := preTokenStage_ok_facts env (some p) a p1 act hpre
  have hp : p1 = p := by
    unfold resolvePlace at hres
    simp only [Except.ok.injEq] at hres
    exact hres.symm
  subst hp
  exact hauth

/-- Complete case analysis of a `TransactionW2W` run: amount gate,
pre-token stage, sender-token existence and balance, then the REFILL or
plain path with their hash checks. -/
theorem run_shape (env : Env) (place? : Option Place) (a : TransactionAttrs)
    (st : LedgerState) :
    (a.amount ≤ 0 ∧
        transactionW2W_run env place? a st = ⟨.error .amountMustBePositive, st, []⟩)
    ∨ (0 < a.amount ∧ ∃ e, preTokenStage env place? a = .error e ∧
        transactionW2W_run env place? a st = ⟨.error e, st, []⟩)
    ∨ (0 < a.amount ∧ ∃ p act, preTokenStage env place? a = .ok (p, act) ∧
        ((findToken st a.sender.id a.asset.id = none ∧
            transactionW2W_run env place? a st = ⟨.error .senderTokenDoesNotExist, st, []⟩)
         ∨ (∃ ts, findToken st a.sender.id a.asset.id = some ts ∧
             ((ts.value < a.amount ∧ (act = .SALE ∨ act = .TRANSFER) ∧
                 transactionW2W_run env place? a st = ⟨.error .notEnoughToken, st, []⟩)
              ∨ (¬ (ts.value < a.amount ∧ (act = .SALE ∨ act = .TRANSFER)) ∧
                 ((act = .REFILL ∧
                     ((env.hashOk (mkCreationRec a) = false ∧
                         transactionW2W_run env place? a st =
                           ⟨.error .transactionHashNotValid,
                             applyTransaction (receiverEnsured st a) (mkCreationRec a),
                             [mkCreationRec a]⟩)
                      ∨ (env.hashOk (mkCreationRec a) = true ∧
                         env.hashOk (mkMainRec a .REFILL) = false ∧
                         transactionW2W_run env place? a st =
                           ⟨.error .transactionHashNotValid,
                             applyTransaction
                               (applyTransaction (receiverEnsured st a) (mkCreationRec a))
                               (mkMainRec a .REFILL),
                             [mkCreationRec a, mkMainRec a .REFILL]⟩)
                      ∨ (env.hashOk (mkCreationRec a) = true ∧
                         env.hashOk (mkMainRec a .REFILL) = true ∧
                         transactionW2W_run env place? a st =
                           ⟨.ok .REFILL,
                             applyTransaction
                               (applyTransaction (receiverEnsured st a) (mkCreationRec a))
                               (mkMainRec a .REFILL),
                             [mkCreationRec a, mkMainRec a .REFILL]⟩)))
                  ∨ (act ≠ .REFILL ∧
                     ((env.hashOk (mkMainRec a act) = false ∧
                         transactionW2W_run env place? a st =
                           ⟨.error .transactionHashNotValid,
                             applyTransaction (receiverEnsured st a) (mkMainRec a act),
                             [mkMainRec a act]⟩)
                      ∨ (env.hashOk (mkMainRec a act) = true ∧
                         transactionW2W_run env place? a st =
                           ⟨.ok act,
                             applyTransaction (receiverEnsured st a) (mkMainRec a act),
                             [mkMainRec a act]⟩))))))))) := by
  by_cases hamt : a.amount ≤ 0
  · exact Or.inl ⟨hamt, by simp [transactionW2W_run, validate_amount, hamt]⟩
  · push_neg at hamt
    have hv : validate_amount a.amount = .ok a.amount := by
      unfold validate_amount
      rw [if_neg (not_le.mpr hamt)]
    refine Or.inr ?_
    cases hpre : preTokenStage env place? a with
    | error e =>
      exact Or.inl ⟨hamt, e, rfl,
        by simp [transactionW2W_run, transactionW2W_validate, hv, hpre]⟩
    | ok pa =>
      obtain ⟨p, act⟩ := pa
      refine Or.inr ⟨hamt, p, act, rfl, ?_⟩
      cases hft : findToken st a.sender.id a.asset.id with
      | none =>
        exact Or.inl ⟨rfl,
          by simp [transactionW2W_run, transactionW2W_validate, hv, hpre, hft]⟩
      | some ts =>
        refine Or.inr ⟨ts, rfl, ?_⟩
        by_cases hval : ts.value < a.amount ∧ (act = .SALE ∨ act = .TRANSFER)
        · exact Or.inl ⟨hval.1, hval.2,
            by simp [transactionW2W_run, transactionW2W_validate, hv, hpre, hft, hval]⟩
        · refine Or.inr ⟨hval, ?_⟩
          by_cases hrf : act = .REFILL
          · subst hrf
            refine Or.inl ⟨rfl, ?_⟩
            cases hh1 : env.hashOk (mkCreationRec a) with
            | false =>
              exact Or.inl ⟨rfl,
                by simp [transactionW2W_run, transactionW2W_validate, hv, hpre, hft,
                  hval, hh1]⟩
            | true =>
              cases hh2 : env.hashOk (mkMainRec a .REFILL) with
              | false =>
                exact Or.inr (Or.inl ⟨rfl, rfl,
                  by simp [transactionW2W_run, transactionW2W_validate, hv, hpre, hft,
                    hval, hh1, hh2]⟩)
              | true =>
                exact Or.inr (Or.inr ⟨rfl, rfl,
                  by simp [transactionW2W_run, transactionW2W_validate, hv, hpre, hft,
                    hval, hh1, hh2]⟩)
          · refine Or.inr ⟨hrf, ?_⟩
            cases hh2 : env.hashOk (mkMainRec a act) with
            | false =>
              exact Or.inl ⟨rfl,
                by simp [transactionW2W_run, transactionW2W_validate, hv, hpre, hft,
                  hval, hrf, hh2]⟩
            | true =>
              exact Or.inr ⟨rfl,
                by simp [transactionW2W_run, transactionW2W_validate, hv, hpre, hft,
                  hval, hrf, hh2]⟩

/-- The specification's running example place: wallet 1, primary card
20, accepted asset 5. -/
def specPlace : Place := ⟨7, 1, [20], [5]⟩

/-- The specification's running example local asset, originating from
the place's wallet. -/
def specAsset : Asset := ⟨5, .tokenLocalNotFiat, 1, false⟩

/-- The example place's wallet. -/
def specPlaceWallet : Wallet := ⟨1, false, false, none⟩

/-- The example user's wallet. -/
def specUserWallet : Wallet := ⟨2, false, true, none⟩

/-- The example registered primary card. -/
def specPrimaryCard : Card := ⟨20, 7, 100, [], none, none⟩

/-- The example user card, delegating authority to wallet 1. -/
def specUserCard : Card := ⟨21, 7, 2, [1], some 42, none⟩

/-- An environment whose hash check always passes. -/
def allHashEnv : Env := ⟨fun _ => true, fun _ => specAsset, fun _ => specPlace⟩

/-- The example SALE request: user wallet pays the place's wallet. -/
def specSaleAttrs : TransactionAttrs :=
  ⟨4, specUserWallet, specPlaceWallet, specAsset, none, false,
    some specPrimaryCard, some specUserCard⟩

/-- Token table for the example SALE: the user holds 10 of asset 5. -/
def specSaleState : LedgerState := [⟨1, 5, 0⟩, ⟨2, 5, 10⟩]

/-- The example REFILL request: the place's wallet tops up the user
wallet. -/
def specRefillAttrs : TransactionAttrs :=
  ⟨10, specPlaceWallet, specUserWallet, specAsset, some .REFILL, false,
    some specPrimaryCard, some specUserCard⟩

/-- Token table for the example REFILL: the place holds an empty token
of asset 5. -/
def specRefillState : LedgerState := [⟨1, 5, 0⟩]

/-- C5 witness: the theorem applied on a concrete successful SALE run;
its receiver is the place's wallet. -/
theorem validate_c5_witness :
    specPlace.wallet = specSaleAttrs.sender.id ∨
      specPlace.wallet = specSaleAttrs.receiver.id ∨
      specSaleAttrs.asset.isStripePrimary = true ∨
      TransactionAction.SALE = .FUSION :=
  validate_c5 allHashEnv specPlace specSaleAttrs specSaleState .SALE rfl

/-- C6: a run that validates a REFILL records exactly a CREATION
transaction (sender = receiver = the minting sender wallet, amount = the
requested amount) followed by the REFILL transaction, and both pass the
hash check; when the CREATION hash check fails no REFILL transaction is
ever created; and with a REFILL classification any failing hash check
makes the run fail. -/
theorem validate_c6 (env : Env) (place? : Option Place) (a : TransactionAttrs)
    (st : LedgerState) :
    ((transactionW2W_run env place? a st).result = .ok .REFILL →
        (transactionW2W_run env place? a st).created =
            [mkCreationRec a, mkMainRec a .REFILL]
        ∧ (mkCreationRec a).sender = a.sender.id
        ∧ (mkCreationRec a).receiver = a.sender.id
        ∧ (mkCreationRec a).amount = a.amount
        ∧ (mkCreationRec a).action = .CREATION
        ∧ env.hashOk (mkCreationRec a) = true
        ∧ env.hashOk (mkMainRec a .REFILL) = true)
    ∧ (env.hashOk (mkCreationRec a) = false →
        ∀ r ∈ (transactionW2W_run env place? a st).created, r.action ≠ .REFILL)
    ∧ (∀ p, resolvePlace env place? a = .ok p →
        transactionW2W_get_action p a = .ok .REFILL →
        (env.hashOk (mkCreationRec a) = false ∨ env.hashOk (mkMainRec a .REFILL) = false) →
        ∀ act, (transactionW2W_run env place? a st).result ≠ .ok act) := by
  rcases run_shape env place? a st with ⟨hamt, hrun⟩ | ⟨hamt, e, hpre, hrun⟩ |
    ⟨hamt, p1, act1, hpre, hcase⟩
  · refine ⟨?_, ?_, ?_⟩
    · intro h; rw [hrun] at h; simp at h
    · intro hc r hr; rw [hrun] at hr; simp at hr
    · intro p hres hact hh act2 h; rw [hrun] at h; simp at h
  · refine ⟨?_, ?_, ?_⟩
    · intro h; rw [hrun] at h; simp at h
    · intro hc r hr; rw [hrun] at hr; simp at hr
    · intro p hres hact hh act2 h; rw [hrun] at h; simp at h
  · rcases hcase with ⟨hft, hrun⟩ | ⟨ts, hft, hcase2⟩
    · refine ⟨?_, ?_, ?_⟩
      · intro h; rw [hrun] at h; simp at h
      · intro hc r hr; rw [hrun] at hr; simp at hr
      · intro p hres hact hh act2 h; rw [hrun] at h; simp at h
    · rcases hcase2 with ⟨hlt, hsl, hrun⟩ | ⟨hval, hcase3⟩
      · refine ⟨?_, ?_, ?_⟩
        · intro h; rw [hrun] at h; simp at h
        · intro hc r hr; rw [hrun] at hr; simp at hr
        · intro p hres hact hh act2 h; rw [hrun] at h; simp at h
      · rcases hcase3 with ⟨hact1, hsub⟩ | ⟨hact1, hsub⟩
        · subst hact1
          rcases hsub with ⟨hh1, hrun⟩ | ⟨hh1, hh2, hrun⟩ | ⟨hh1, hh2, hrun⟩
          · refine ⟨?_, ?_, ?_⟩
            · intro h; rw [hrun] at h; simp at h
            · intro hc r hr
              rw [hrun] at hr
              simp at hr
              subst hr
              simp [mkCreationRec]
            · intro p hres hact hh act2 h; rw [hrun] at h; simp at h
          · refine ⟨?_, ?_, ?_⟩
            · intro h; rw [hrun] at h; simp at h
            · intro hc; rw [hh1] at hc; simp at hc
            · intro p hres hact hh act2 h; rw [hrun] at h; simp at h
          · refine ⟨?_, ?_, ?_⟩
            · intro h
              rw [hrun]
              exact ⟨rfl, rfl, rfl, rfl, rfl, hh1, hh2⟩
            · intro hc; rw [hh1] at hc; simp at hc
            · intro p hres hact hh act2 h
              rcases hh with hh | hh
              · rw [hh1] at hh; simp at hh
              · rw [hh2] at hh; simp at hh
        · rcases hsub with ⟨hh2, hrun⟩ | ⟨hh2, hrun⟩
          · refine ⟨?_, ?_, ?_⟩
            · intro h; rw [hrun] at h; simp at h
            · intro hc r hr
              rw [hrun] at hr
              simp at hr
              subst hr
              simpa [mkMainRec] using hact1
            · intro p hres hact hh act2 h; rw [hrun] at h; simp at h
          · refine ⟨?_, ?_, ?_⟩
            · intro h
              rw [hrun] at h
              simp at h
              exact absurd h hact1
            · intro hc r hr
              rw [hrun] at hr
              simp at hr
              subst hr
              simpa [mkMainRec] using hact1
            · intro p hres hact hh act2 h
              obtain ⟨hres1, hact1f, _⟩ := preTokenStage_ok_facts env place? a p1 act1 hpre
              rw [hres] at hres1
              simp only [Except.ok.injEq] at hres1
              subst hres1
              rw [hact] at hact1f
              simp only [Except.ok.injEq] at hact1f
              exact absurd hact1f.symm hact1

/-- C6 witness: the theorem applied on the concrete example REFILL run,
whose record list is the CREATION followed by the REFILL. -/
theorem validate_c6_witness :
    (transactionW2W_run allHashEnv (some specPlace) specRefillAttrs specRefillState).created =
      [mkCreationRec specRefillAttrs, mkMainRec specRefillAttrs .REFILL] :=
  ((validate_c6 allHashEnv (some specPlace) specRefillAttrs specRefillState).1 rfl).1

/-- C7: when the pre-token stage classified SALE or TRANSFER, a missing
sender token and an insufficient sender token are rejected with two
distinct errors, and a successful run implies the sender token existed
with value at least the amount. -/
theorem validate_c7 (env : Env) (place? : Option Place) (a : TransactionAttrs)
    (st : LedgerState) (p : Place) (act : TransactionAction)
    (hpre : preTokenStage env place? a = .ok (p, act))
    (hamt : 0 < a.amount)
    (hact : act = .SALE ∨ act = .TRANSFER) :
    (findToken st a.sender.id a.asset.id = none →
        (transactionW2W_run env place? a st).result = .error .senderTokenDoesNotExist)
    ∧ (∀ t, findToken st a.sender.id a.asset.id = some t → t.value < a.amount →
        (transactionW2W_run env place? a st).result = .error .notEnoughToken)
    ∧ (∀ act2, (transactionW2W_run env place? a st).result = .ok act2 →
        ∃ t, findToken st a.sender.id a.asset.id = some t ∧ a.amount ≤ t.value)
    ∧ VErr.senderTokenDoesNotExist ≠ VErr.notEnoughToken := by
  rcases run_shape env place? a st with ⟨h0, hrun⟩ | ⟨h0, e, hpre2, hrun⟩ |
    ⟨h0, p1, act1, hpre2, hcase⟩
  · exact absurd h0 (not_le.mpr hamt)
  · rw [hpre] at hpre2; simp at hpre2
  · rw [hpre] at hpre2
    simp only [Except.ok.injEq, Prod.mk.injEq] at hpre2
    obtain ⟨hp, ha⟩ := hpre2
    subst ha
    rcases hcase with ⟨hft, hrun⟩ | ⟨ts, hft, hcase2⟩
    · refine ⟨?_, ?_, ?_, by simp⟩
      · intro h; rw [hrun]
      · intro t ht hlt2; rw [hft] at ht; simp at ht
      · intro act2 h; rw [hrun] at h; simp at h
    · rcases hcase2 with ⟨hlt, hsl, hrun⟩ | ⟨hval, hcase3⟩
      · refine ⟨?_, ?_, ?_, by simp⟩
        · intro h; rw [hft] at h; simp at h
        · intro t ht hlt2; rw [hrun]
        · intro act2 h; rw [hrun] at h; simp at h
      · have hge : a.amount ≤ ts.value := by
          by_contra hlt2
          push_neg at hlt2
          exact hval ⟨hlt2, hact⟩
        refine ⟨?_, ?_, ?_, by simp⟩
        · intro h; rw [hft] at h; simp at h
        · intro t ht hlt2
          rw [hft] at ht
          simp only [Option.some.injEq] at ht
          subst ht
          exact absurd hlt2 (not_lt.mpr hge)
        · intro act2 h
          exact ⟨ts, hft, hge⟩

/-- C7 witness: the theorem applied on the concrete SALE request over a
token table in which the sender never had a token: the distinct
missing-token error is returned. -/
theorem validate_c7_witness :
    (transactionW2W_run allHashEnv (some specPlace) specSaleAttrs [⟨1, 5, 0⟩]).result =
      .error .senderTokenDoesNotExist :=
  (validate_c7 allHashEnv (some specPlace) specSaleAttrs [⟨1, 5, 0⟩] specPlace .SALE
    rfl (by decide) (Or.inl rfl)).1 rfl

/-- Presence of a token is preserved by a credit (which only updates a
value or appends a new row). -/
theorem findToken_isSome_credit (st : LedgerState) (w a w1 a1 : Nat) (amt : Int)
    (h : (findToken st w a).isSome = true) :
    (findToken (creditToken st w1 a1 amt) w a).isSome = true := by
  induction st with
  | nil => simp [findToken] at h
  | cons t ts ih =>
    simp only [creditToken]
    split
    · next h1 =>
      simp only [findToken] at h ⊢
      split at h
      · next h2 => simp [h2]
      · next h2 => simp [h2]; exact h
    · next h1 =>
      simp only [findToken] at h ⊢
      split at h
      · next h2 => simp [h2]
      · next h2 => simp [h2]; exact ih h

/-- Presence of a token is preserved by a debit. -/
theorem findToken_isSome_debit (st : LedgerState) (w a w1 a1 : Nat) (amt : Int)
    (h : (findToken st w a).isSome = true) :
    (findToken (debitToken st w1 a1 amt) w a).isSome = true := by
  induction st with
  | nil => simp [findToken] at h
  | cons t ts ih =>
    simp only [debitToken]
    split
    · next h1 =>
      simp only [findToken] at h ⊢
      split at h
      · next h2 => simp [h2]
      · next h2 => simp [h2]; exact h
    · next h1 =>
      simp only [findToken] at h ⊢
      split at h
      · next h2 => simp [h2]
      · next h2 => simp [h2]; exact ih h

/-- Presence of a token is preserved by the balance application of any
transaction. -/
theorem findToken_isSome_apply (st : LedgerState) (w a : Nat) (tx : TransactionRec)
    (h : (findToken st w a).isSome = true) :
    (findToken (applyTransaction st tx) w a).isSome = true := by
  unfold applyTransaction
  split
  · exact findToken_isSome_credit st w a tx.receiver tx.asset tx.amount h
  · exact findToken_isSome_credit _ w a tx.receiver tx.asset tx.amount
      (findToken_isSome_debit st w a tx.sender tx.asset tx.amount h)

/-- Appending a row for `(w, a)` makes its token present. -/
theorem findToken_append_isSome (st : LedgerState) (w a : Nat) (v : Int) :
    (findToken (st ++ [(⟨w, a, v⟩ : Token)]) w a).isSome = true := by
  induction st with
  | nil => simp [findToken]
  | cons t ts ih =>
    by_cases h : t.wallet = w ∧ t.asset = a
    · simp [findToken, h]
    · simp [findToken, h]
      exact ih

/-- After the receiver-token step, the receiver's token is present. -/
theorem findToken_receiverEnsured (st : LedgerState) (a : TransactionAttrs) :
    (findToken (receiverEnsured st a) a.receiver.id a.asset.id).isSome = true := by
  unfold receiverEnsured
  by_cases h : (findToken st a.receiver.id a.asset.id).isSome = true
  · simp [h]
  · simp only [Bool.not_eq_true] at h
    simp [h, findToken_append_isSome]

/-- C10: whatever the classified action (SUBSCRIBE, BADGE, REFILL and
FUSION included), validation fails with the sender-token-missing error
whenever the sender wallet holds no token for the asset; the run never
creates a sender token in that situation (the token table is returned
unchanged); and on success the receiver's token exists, lazily created
when absent. -/
theorem validate_c10 (env : Env) (place? : Option Place) (a : TransactionAttrs)
    (st : LedgerState) :
    (∀ p act, preTokenStage env place? a = .ok (p, act) → 0 < a.amount →
        findToken st a.sender.id a.asset.id = none →
        (transactionW2W_run env place? a st).result = .error .senderTokenDoesNotExist)
    ∧ (findToken st a.sender.id a.asset.id = none →
        (transactionW2W_run env place? a st).state = st)
    ∧ (∀ act, (transactionW2W_run env place? a st).result = .ok act →
        (findToken (transactionW2W_run env place? a st).state
          a.receiver.id a.asset.id).isSome = true) := by
  rcases run_shape env place? a st with ⟨h0, hrun⟩ | ⟨h0, e, hpre2, hrun⟩ |
    ⟨h0, p1, act1, hpre2, hcase⟩
  · refine ⟨?_, ?_, ?_⟩
    · intro p act hpre hamt hft; exact absurd h0 (not_le.mpr hamt)
    · intro hft; rw [hrun]
    · intro act h; rw [hrun] at h; simp at h
  · refine ⟨?_, ?_, ?_⟩
    · intro p act hpre hamt hft; rw [hpre] at hpre2; simp at hpre2
    · intro hft; rw [hrun]
    · intro act h; rw [hrun] at h; simp at h
  · rcases hcase with ⟨hft, hrun⟩ | ⟨ts, hft, hcase2⟩
    · refine ⟨?_, ?_, ?_⟩
      · intro p act hpre hamt hft2; rw [hrun]
      · intro hft2; rw [hrun]
      · intro act h; rw [hrun] at h; simp at h
    · have hsome : (findToken st a.sender.id a.asset.id).isSome = true := by
        rw [hft]; rfl
      refine ⟨?_, ?_, ?_⟩
      · intro p act hpre hamt hft2
        rw [hft2] at hsome
        simp at hsome
      · intro hft2
        rw [hft2] at hsome
        simp at hsome
      · intro act h
        rcases hcase2 with ⟨hlt, hsl, hrun⟩ | ⟨hval, hcase3⟩
        · rw [hrun] at h; simp at h
        · rcases hcase3 with ⟨hact1, hsub⟩ | ⟨hact1, hsub⟩
          · rcases hsub with ⟨hh1, hrun⟩ | ⟨hh1, hh2, hrun⟩ | ⟨hh1, hh2, hrun⟩
            · rw [hrun] at h; simp at h
            · rw [hrun] at h; simp at h
            · rw [hrun]
              show (findToken
                (applyTransaction (applyTransaction (receiverEnsured st a) (mkCreationRec a))
                  (mkMainRec a .REFILL)) a.receiver.id a.asset.id).isSome = true
              exact findToken_isSome_apply _ _ _ (mkMainRec a .REFILL)
                (findToken_isSome_apply _ _ _ (mkCreationRec a)
                  (findToken_receiverEnsured st a))
          · rcases hsub with ⟨hh2, hrun⟩ | ⟨hh2, hrun⟩
            · rw [hrun] at h; simp at h
            · rw [hrun]
              show (findToken (applyTransaction (receiverEnsured st a) (mkMainRec a act1))
                a.receiver.id a.asset.id).isSome = true
              exact findToken_isSome_apply _ _ _ (mkMainRec a act1)
                (findToken_receiverEnsured st a)

/-- C10 witness: the theorem applied on the concrete REFILL request with
an empty token table: even this REFILL is rejected because the sender
(place) wallet has no token, sender tokens being never lazily created. -/
theorem validate_c10_witness :
    (transactionW2W_run allHashEnv (some specPlace) specRefillAttrs []).result =
      .error .senderTokenDoesNotExist :=
  (validate_c10 allHashEnv (some specPlace) specRefillAttrs []).1 specPlace .REFILL
    rfl (by decide) rfl

/-- Concrete place for the C8 counterexample: wallet 10, primary card
20, accepted asset 7. -/
def c8Place : Place := ⟨3, 10, [20], [7]⟩

/-- The C8 counterexample asset: accepted by the place but originating
from wallet 99, not from the place's wallet. -/
def c8ForeignAsset : Asset := ⟨7, .tokenLocalFiat, 99, false⟩

/-- Environment resolving every asset id to the foreign-origin asset. -/
def c8Env : Env := ⟨fun _ => true, fun _ => c8ForeignAsset, fun _ => c8Place⟩

/-- A registered primary card for the C8 counterexample. -/
def c8PrimaryCard : Card := ⟨20, 3, 100, [], none, none⟩

/-- The user card being refunded: its wallet is 60. -/
def c8UserCard : Card := ⟨21, 3, 60, [10], some 42, some 61⟩

/-- Token table for the C8 counterexample: the card's wallet holds 25 of
the accepted asset 7. -/
def c8State : LedgerState := [⟨60, 7, 25⟩]

/-- C8 counterexample: a REFUND over a wallet holding a positive balance
in an asset **accepted** by the place, but originating from another
place's wallet, succeeds while creating **no** transaction — the sweep
filters on the asset's origin wallet and local category, not on the
accepted-asset set the claim names. -/
theorem refund_c8_counterexample :
    c8ForeignAsset.id ∈ c8Place.acceptedAssets ∧
    c8Env.assetOfId 7 = c8ForeignAsset ∧
    c8ForeignAsset.walletOrigin ≠ c8Place.wallet ∧
    (⟨60, 7, 25⟩ : Token) ∈ c8State ∧
    (⟨60, 7, 25⟩ : Token).wallet = c8UserCard.walletId ∧
    (0 : Int) < (⟨60, 7, 25⟩ : Token).value ∧
    (cardRefundOrVoid_validate c8Env c8Place (some c8PrimaryCard) (some c8UserCard)
      (some .REFUND) c8State).result = .ok () ∧
    (cardRefundOrVoid_validate c8Env c8Place (some c8PrimaryCard) (some c8UserCard)
      (some .REFUND) c8State).transactions = [] := by
  exact ⟨by decide, rfl, by decide, by decide, rfl, by decide, rfl, rfl⟩

/-- C8 amended: for a registered primary card and a user card, REFUND
succeeds and creates, for every token of the card's wallet with positive
balance **in an asset that originates from the place's wallet and has a
local (fiat or non-fiat) category**, one transaction moving the token's
full balance from the card's wallet to the place's wallet (and nothing
else); VOID performs the same sweep and then detaches the card from both
its user and any ephemeral wallet, while REFUND leaves the card
untouched. -/
theorem refund_c8_amended (env : Env) (place : Place) (pc uc : Card) (st : LedgerState)
    (hpc : pc.id ∈ place.primaryCards) :
    ((cardRefundOrVoid_validate env place (some pc) (some uc) (some .REFUND) st).result =
        .ok ())
    ∧ ((cardRefundOrVoid_validate env place (some pc) (some uc) (some .VOID) st).result =
        .ok ())
    ∧ (cardRefundOrVoid_validate env place (some pc) (some uc) (some .VOID) st).transactions =
        (cardRefundOrVoid_validate env place (some pc) (some uc) (some .REFUND) st).transactions
    ∧ (∀ t ∈ st, t.wallet = uc.walletId → 0 < t.value →
        (env.assetOfId t.asset).walletOrigin = place.wallet →
        ((env.assetOfId t.asset).category = .tokenLocalFiat ∨
          (env.assetOfId t.asset).category = .tokenLocalNotFiat) →
        (⟨uc.walletId, place.wallet, t.asset, t.value, .REFUND⟩ : TransactionRec) ∈
          (cardRefundOrVoid_validate env place (some pc) (some uc) (some .REFUND) st).transactions)
    ∧ (∀ tx ∈ (cardRefundOrVoid_validate env place (some pc) (some uc)
          (some .REFUND) st).transactions,
        tx.sender = uc.walletId ∧ tx.receiver = place.wallet ∧ tx.action = .REFUND ∧
        ∃ t ∈ st, t.wallet = uc.walletId ∧ 0 < t.value ∧
          (env.assetOfId t.asset).walletOrigin = place.wallet ∧
          ((env.assetOfId t.asset).category = .tokenLocalFiat ∨
            (env.assetOfId t.asset).category = .tokenLocalNotFiat) ∧
          tx.asset = t.asset ∧ tx.amount = t.value)
    ∧ (cardRefundOrVoid_validate env place (some pc) (some uc) (some .VOID) st).userCard =
        some { uc with user := none, walletEphemere := none }
    ∧ (cardRefundOrVoid_validate env place (some pc) (some uc) (some .REFUND) st).userCard =
        some uc := by
  refine ⟨?_, ?_, ?_, ?_, ?_, ?_, ?_⟩
  · simp [cardRefundOrVoid_validate, cardRefundOrVoid_body, hpc]
  · simp [cardRefundOrVoid_validate, cardRefundOrVoid_body, hpc]
  · simp [cardRefundOrVoid_validate, cardRefundOrVoid_body, hpc]
  · intro t ht hw hv ho hc
    simp [cardRefundOrVoid_validate, cardRefundOrVoid_body, hpc, refundSweepTokens,
      List.mem_filter, List.mem_map]
    exact ⟨t, ⟨ht, hw, hv, ho, hc⟩, rfl, rfl⟩
  · intro tx htx
    simp [cardRefundOrVoid_validate, cardRefundOrVoid_body, hpc, refundSweepTokens,
      List.mem_filter, List.mem_map] at htx
    obtain ⟨t, ⟨ht, hw, hv, ho, hc⟩, htx⟩ := htx
    subst htx
    exact ⟨rfl, rfl, rfl, t, ht, hw, hv, ho, hc, rfl, rfl⟩
  · simp [cardRefundOrVoid_validate, cardRefundOrVoid_body, hpc]
  · simp [cardRefundOrVoid_validate, cardRefundOrVoid_body, hpc]

/-- C8 witness: the amended theorem applied on a concrete sweep: an
asset originating from the place with positive balance 25 produces the
full-balance REFUND transaction. -/
theorem refund_c8_witness :
    (⟨60, 10, 7, 25, .REFUND⟩ : TransactionRec) ∈
      (cardRefundOrVoid_validate
        ⟨fun _ => true, fun _ => ⟨7, .tokenLocalFiat, 10, false⟩, fun _ => c8Place⟩
        c8Place (some c8PrimaryCard) (some c8UserCard) (some .REFUND) c8State).transactions :=
  (refund_c8_amended
      ⟨fun _ => true, fun _ => ⟨7, .tokenLocalFiat, 10, false⟩, fun _ => c8Place⟩
      c8Place c8PrimaryCard c8UserCard c8State (by decide)).2.2.2.1
    ⟨60, 7, 25⟩ (by decide) rfl (by decide) rfl (Or.inl rfl)

/-- Outcome shape of a wallet-fusion attempt: either an error with the
card untouched, or success with the ephemeral wallet verified empty and
the card relinked. -/
theorem fusion_shape (env : Env) (place : Place) (card : Card) (we wu : Wallet)
    (userId : Nat) (st : LedgerState) :
    (∃ e s, walletCreate_fusion env place card we wu userId st = ⟨.error e, card, s⟩)
    ∨ (∃ s, positiveTokens s we.id = [] ∧
        walletCreate_fusion env place card we wu userId st =
          ⟨.ok (), { card with walletEphemere := none, user := some userId }, s⟩) := by
  unfold walletCreate_fusion
  cases hloop : (if we.id ≠ wu.id then fusionLoop env place we wu card st (positiveTokens st we.id)
      else .ok st : Except (VErr × LedgerState) LedgerState) with
  | error es =>
    obtain ⟨e, s⟩ := es
    exact Or.inl ⟨e, s, rfl⟩
  | ok s =>
    by_cases hne : positiveTokens s we.id = []
    · exact Or.inr ⟨s, hne, by simp [hne]⟩
    · exact Or.inl ⟨.walletEphemereNotEmpty, s, by simp [hne]⟩

/-- C9: after a fusion attempt on a card linked to ephemeral wallet `we`
and to no user, exactly one of two outcomes holds: on success the
ephemeral wallet retains no positive balance in any asset (hence, values
being non-negative, zero balance), the card's ephemeral-wallet link is
cleared and the card is linked to the target user; on error the card is
unchanged — still linked to its ephemeral wallet, with no user link. -/
theorem fusion_c9 (env : Env) (place : Place) (card : Card) (we wu : Wallet)
    (userId : Nat) (st : LedgerState)
    (hlink : card.walletEphemere = some we.id)
    (huser : card.user = none) :
    ((walletCreate_fusion env place card we wu userId st).result = .ok () →
        (∀ t ∈ (walletCreate_fusion env place card we wu userId st).state,
            t.wallet = we.id → t.value ≤ 0)
        ∧ (walletCreate_fusion env place card we wu userId st).card.walletEphemere = none
        ∧ (walletCreate_fusion env place card we wu userId st).card.user = some userId)
    ∧ (∀ e, (walletCreate_fusion env place card we wu userId st).result = .error e →
        (walletCreate_fusion env place card we wu userId st).card = card
        ∧ (walletCreate_fusion env place card we wu userId st).card.walletEphemere =
            some we.id
        ∧ (walletCreate_fusion env place card we wu userId st).card.user = none) := by
  rcases fusion_shape env place card we wu userId st with ⟨e, s, heq⟩ | ⟨s, hempty, heq⟩
  · rw [heq]
    refine ⟨?_, ?_⟩
    · intro h; simp at h
    · intro e2 h2
      exact ⟨rfl, hlink, huser⟩
  · rw [heq]
    refine ⟨?_, ?_⟩
    · intro h
      refine ⟨?_, rfl, rfl⟩
      intro t ht hw
      have hnp := List.filter_eq_nil_iff.mp hempty t ht
      simp [hw] at hnp
      exact hnp
    · intro e h; simp at h

/-- The ephemeral card of the C9 witness, bound to wallet 5. -/
def fusionCard : Card := ⟨30, 7, 5, [], none, some 5⟩

/-- The C9 witness ephemeral wallet (id 5), carrying the ephemeral
card. -/
def fusionWe : Wallet := ⟨5, false, false, some fusionCard⟩

/-- The C9 witness target user wallet (id 6). -/
def fusionWu : Wallet := ⟨6, false, true, none⟩

/-- Token table for the C9 witness: the ephemeral wallet holds 8 of
asset 5. -/
def fusionState : LedgerState := [⟨5, 5, 8⟩]

/-- C9 witness: the theorem applied on a concrete successful fusion:
the card ends linked to user 42 with its ephemeral-wallet link
cleared. -/
theorem fusion_c9_witness :
    (walletCreate_fusion allHashEnv specPlace fusionCard fusionWe fusionWu 42
        fusionState).card.user = some 42 ∧
    (walletCreate_fusion allHashEnv specPlace fusionCard fusionWe fusionWu 42
        fusionState).card.walletEphemere = none :=
  have h := (fusion_c9 allHashEnv specPlace fusionCard fusionWe fusionWu 42 fusionState
    rfl rfl).1 rfl
  ⟨h.2.2, h.2.1⟩

end Fedow
